import Mathlib

/-!
# rpi-gpio-test: GPIO benchmark kernel module

A shallow embedding of `src/rpi-gpio-test.c` and the properties of its
specification.

* Machine integers are natural numbers; `unsigned int` results are reduced
  modulo `2 ^ 32` and `unsigned long long` results modulo `2 ^ 64`.
* The build-time switches (`USE_...`) are fields of `Config` and the iteration
  counts are parameters, so that every configuration of the source is covered.
* Everything the module does to the outside world (pin writes, pin reads,
  kernel calls, log lines) is recorded as a list of `Event`s in program order;
  everything it learns from the outside world (pin levels, clock readings,
  results of kernel calls) is an explicit input.
-/

namespace RpiGpioTest

/-! ## Pins -/

def GPIO_A_OUT : Nat := 17
def GPIO_A_IN : Nat := 18
def GPIO_B_OUT : Nat := 23
def GPIO_B_IN : Nat := 24
def GPIO_C_OUT : Nat := 22

/-! ## Configuration switches -/

/-- The build-time switches of lines 14-20; as in the preprocessor, a switch is
set when its value is not zero. -/
structure Config where
  USE_GPIO_REGS : Int
  USE_RW_IRQ : Int
  USE_RW_POLL : Int
  USE_RW_YIELD : Int
  USE_WO_BLOCKING : Int
  USE_WO_THREADED : Int
  USE_AFFINITY : Int
  deriving DecidableEq, Repr

/-- The switches as the source sets them. -/
def shipped_config : Config :=
  ⟨1, 0, 1, 0, 1, 0, 1⟩

/-- The condition of the sanity check
`#if (USE_RW_IRQ && USE_RW_POLL || USE_WO_BLOCKING && USE_WO_THREADED)`;
when it holds compilation stops with `#error`. -/
def sanity_check_fails (c : Config) : Bool :=
  (decide (c.USE_RW_IRQ ≠ 0) && decide (c.USE_RW_POLL ≠ 0)) ||
  (decide (c.USE_WO_BLOCKING ≠ 0) && decide (c.USE_WO_THREADED ≠ 0))

def RW_IRQ_ITERATION_COUNT (c : Config) : Nat :=
  if c.USE_GPIO_REGS ≠ 0 then 500000 else 50000

def RW_POLL_ITERATION_COUNT (c : Config) : Nat :=
  if c.USE_GPIO_REGS ≠ 0 then 5000000 else 500000

def WO_ITERATION_COUNT (c : Config) : Nat :=
  if c.USE_GPIO_REGS ≠ 0 then 10000000 else 1000000

/-! ## Events -/

inductive Thread
  | rw_a | rw_b | wo
  deriving DecidableEq, Repr

inductive Handler
  | a | b
  deriving DecidableEq, Repr

inductive Bench
  | irq | poll | wo
  deriving DecidableEq, Repr

/-- The log lines of the module other than the three result lines. -/
inductive Msg
  | loading
  | unloading
  | preparing_regs
  | error_mapping
  | preparing_api
  | cannot_request (g : Nat) (result : Int)
  | cannot_configure (g : Nat) (result : Int)
  | setting_irq_handler (g : Nat) (irq : Int)
  | error_code (result : Int)
  | starting_rw_threads
  | unable_rw_threads
  | starting_wo_thread
  | unable_wo_thread
  | lowering (g : Nat)
  | benchmarking_wo
  | entering_wo
  | exiting_wo
  | entering_a
  | exiting_a
  | entering_b
  | exiting_b
  deriving DecidableEq, Repr

/-- What the module does, in program order. An event of a call that returns a
value carries the value returned. `gpio_set`, `gpio_clr` and `gpio_get` are the
uses of `GPIO_SET`, `GPIO_CLR` and `GPIO_GET` in either access mode, `func_in`
and `func_out` the uses of `GPIO_SET_FUNC_IN` and `GPIO_SET_FUNC_OUT`;
`gpio_direction g true` is `gpio_direction_output (g, 1)` and
`gpio_direction g false` is `gpio_direction_input (g)`. -/
inductive Event
  | gpio_set (g : Nat)
  | gpio_clr (g : Nat)
  | gpio_get (g : Nat) (b : Bool)
  | func_in (g : Nat)
  | func_out (g : Nat)
  | should_stop (b : Bool)
  | schedule
  | do_div (n base : Nat)
  | report (which : Bench) (count : Nat) (hz : Option Nat)
  | printk (m : Msg)
  | ioremap (ok : Bool)
  | iounmap
  | gpio_request (g : Nat) (result : Int)
  | gpio_direction (g : Nat) (is_out : Bool) (result : Int)
  | gpio_free (g : Nat)
  | request_irq (irq : Int) (h : Handler) (result : Int)
  | free_irq (irq : Int)
  | kthread_create (t : Thread) (ok : Bool)
  | kthread_bind (t : Thread) (cpu : Nat)
  | wake_up_process (t : Thread)
  | kthread_stop (t : Thread)
  deriving DecidableEq, Repr

/-! ## Timing and rate -/

/-- Difference `a - b` of two `unsigned long long` values. -/
def sub64 (a b : Nat) : Nat := (a % 2 ^ 64 + (2 ^ 64 - b % 2 ^ 64)) % 2 ^ 64

/-- The kernel macro `do_div (n, base)`, which this module calls but does not
define. Its contract in `asm-generic/div64.h` is
`uint32_t do_div (uint64_t *n, uint32_t base)` with `*n = *n / base`: the
dividend has 64 bits and the divisor is taken as a 32-bit value. A divisor that
is zero after that conversion is outside the contract; the quotient left in `n`
is then unspecified, which is `none` here. -/
def do_div (n base : Nat) : Option Nat :=
  if base % 2 ^ 32 = 0 then none else some ((n % 2 ^ 64) / (base % 2 ^ 32))

/-- The lines shared by `wo_benchmark`, `rw_thread_b` and `gpio_b_irq_handler`:
`hz = count * 10000000; do_div (hz, time); printk (..., count, hz);`. -/
def report_rate (which : Bench) (count time : Nat) : List Event :=
  let hz := count * 10000000 % 2 ^ 64
  [Event.do_div hz time, Event.report which count (do_div hz time)]

/-! ## Write-only benchmark -/

/-- The loop of `wo_benchmark` with `n` iterations left. -/
def wo_loop : Nat → List Event
  | 0 => []
  | n + 1 => Event.gpio_set GPIO_C_OUT :: Event.gpio_clr GPIO_C_OUT :: wo_loop n

/-- The function `wo_benchmark` for `WO_ITERATION_COUNT = N`; `t0` and `t1` are
the values of `get_timestamp ()` before and after the loop. The loop leaves
`i = N`. -/
def wo_benchmark (N t0 t1 : Nat) : List Event :=
  Event.printk Msg.benchmarking_wo :: (wo_loop N ++ report_rate Bench.wo N (sub64 t1 t0))

/-- The function `wo_thread`. -/
def wo_thread (N t0 t1 : Nat) : List Event :=
  Event.printk Msg.entering_wo :: (wo_benchmark N t0 t1 ++ [Event.printk Msg.exiting_wo])

/-! ## Interrupt chain -/

/-- The function `gpio_a_irq_handler`. -/
def gpio_a_irq_handler : List Event :=
  [Event.gpio_set GPIO_A_OUT, Event.gpio_clr GPIO_B_OUT]

/-- The function `gpio_b_irq_handler` for `RW_IRQ_ITERATION_COUNT = N`, run
from entry to return: `base` is `g_rw_base_timestamp`, `now` the value of
`get_timestamp ()`, `g_count` the counter at entry. Returns the counter at
return and the events. -/
def gpio_b_irq_handler (N base now g_count : Nat) : Nat × List Event :=
  if g_count ≥ N then
    (g_count, Event.gpio_set GPIO_B_OUT :: report_rate Bench.irq g_count (sub64 now base))
  else
    ((g_count + 1) % 2 ^ 64, [Event.gpio_set GPIO_B_OUT, Event.gpio_clr GPIO_A_OUT])

/-- Firings of `gpio_b_irq_handler` one after another, each running to its
return before the next starts; `nows` holds one clock reading per firing. -/
def irq_b_firings (N base : Nat) : List Nat → Nat → Nat × List Event
  | [], g_count => (g_count, [])
  | now :: nows, g_count =>
    let r := gpio_b_irq_handler N base now g_count
    let rest := irq_b_firings N base nows r.1
    (rest.1, r.2 ++ rest.2)

/-- Program points of one invocation of `gpio_b_irq_handler`: before
`GPIO_SET`, at the test of `g_count`, in the reporting branch, at
`__sync_add_and_fetch`, at `GPIO_CLR`. An invocation that has returned is
`idle` again. -/
inductive PcB
  | idle | check | report | incr | kick
  deriving DecidableEq, Repr

/-- One statement of one invocation of `gpio_b_irq_handler`. -/
def irq_b_step (N base now : Nat) : PcB → Nat → PcB × Nat × List Event
  | PcB.idle, g_count => (PcB.check, g_count, [Event.gpio_set GPIO_B_OUT])
  | PcB.check, g_count => (if g_count ≥ N then PcB.report else PcB.incr, g_count, [])
  | PcB.report, g_count => (PcB.idle, g_count, report_rate Bench.irq g_count (sub64 now base))
  | PcB.incr, g_count => (PcB.kick, (g_count + 1) % 2 ^ 64, [])
  | PcB.kick, g_count => (PcB.idle, g_count, [Event.gpio_clr GPIO_A_OUT])

/-- Two invocations of `gpio_b_irq_handler` in flight over the shared counter. -/
structure IrqSys where
  g_count : Nat
  pc0 : PcB
  pc1 : PcB
  deriving DecidableEq, Repr

/-- Simulated concurrent firing: the schedule says which of the two
invocations executes its next statement (`false` the first, `true` the
second). -/
def irq_b_interleave (N base now : Nat) : List Bool → IrqSys → IrqSys × List Event
  | [], s => (s, [])
  | false :: sched, s =>
    let r := irq_b_step N base now s.pc0 s.g_count
    let rest := irq_b_interleave N base now sched ⟨r.2.1, r.1, s.pc1⟩
    (rest.1, r.2.2 ++ rest.2)
  | true :: sched, s =>
    let r := irq_b_step N base now s.pc1 s.g_count
    let rest := irq_b_interleave N base now sched ⟨r.2.1, s.pc0, r.1⟩
    (rest.1, r.2.2 ++ rest.2)

/-! ## Polling threads -/

/-- Program points of `rw_thread_a`: at the test of the outer `while`, at the
test of the inner `while`, at `GPIO_GET`, after the outer loop. -/
inductive PcA
  | outer | inner | poll | exited
  deriving DecidableEq, Repr

/-- One answer from outside (of `kthread_should_stop ()` at `outer` and
`inner`, of `GPIO_GET (GPIO_A_IN)` at `poll`) and what `rw_thread_a` does until
it asks again. `yield` is `USE_RW_YIELD`. -/
def rw_thread_a_step (yield : Bool) : PcA → Bool → PcA × List Event
  | PcA.outer, stop =>
    if stop then (PcA.exited, [Event.should_stop true, Event.printk Msg.exiting_a])
    else (PcA.inner, [Event.should_stop false])
  | PcA.inner, stop =>
    if stop then (PcA.outer, [Event.should_stop true, Event.gpio_clr GPIO_B_OUT])
    else (PcA.poll, [Event.should_stop false])
  | PcA.poll, b =>
    if !b then
      (PcA.outer, [Event.gpio_get GPIO_A_IN false, Event.gpio_set GPIO_A_OUT,
        Event.gpio_clr GPIO_B_OUT])
    else
      (PcA.inner, Event.gpio_get GPIO_A_IN true :: (if yield then [Event.schedule] else []))
  | PcA.exited, _ => (PcA.exited, [])

/-- The `for` loop of `rw_thread_b` for `RW_POLL_ITERATION_COUNT = N`, from
loop counter `i` on the readings `rs` of `GPIO_GET (GPIO_B_IN)`. Returns the
events and, when the loop is left, the final `i`; `none` when the readings end
while the thread is still polling. The counter stays below `N`, so `i++` does
not wrap for a count that fits `unsigned long long`. -/
def rw_thread_b_loop (yield : Bool) (N : Nat) : Nat → List Bool → List Event × Option Nat
  | i, [] => if i < N then ([], none) else ([], some i)
  | i, b :: rs =>
    if i < N then
      if !b then
        let rest := rw_thread_b_loop yield N (i + 1) rs
        (Event.gpio_get GPIO_B_IN false :: Event.gpio_set GPIO_B_OUT ::
          Event.gpio_clr GPIO_A_OUT :: rest.1, rest.2)
      else
        let rest := rw_thread_b_loop yield N i rs
        (Event.gpio_get GPIO_B_IN true ::
          ((if yield then [Event.schedule] else []) ++ rest.1), rest.2)
    else ([], some i)

/-- The function `rw_thread_b`: `base` is `g_rw_base_timestamp`, `now` the
value of `get_timestamp ()` after the loop. -/
def rw_thread_b (yield : Bool) (N : Nat) (rs : List Bool) (base now : Nat) : List Event :=
  Event.printk Msg.entering_b ::
    (match rw_thread_b_loop yield N 0 rs with
     | (tr, some i) =>
       tr ++ report_rate Bench.poll i (sub64 now base) ++
         [Event.kthread_stop Thread.rw_a, Event.printk Msg.exiting_b]
     | (tr, none) => tr)

/-! ## Module initialisation and exit -/

/-- Answers of the kernel to the calls of `rpi_gpio_test_init`: the result of
each fallible call and the clock readings. -/
structure Host where
  ioremap_ok : Bool
  gpio_request : Nat → Int
  gpio_direction_output : Nat → Int
  gpio_direction_input : Nat → Int
  gpio_to_irq : Nat → Int
  request_irq : Int → Handler → Int
  kthread_create_ok : Thread → Bool
  t_wo_start : Nat
  t_wo_end : Nat

def EBUSY : Int := 16
def EFAULT : Int := 14

/-- A step of a function that returns early on a nonzero result: `a`, and
`b` after it only when `a` returned 0. -/
def and_then (a b : Int × List Event) : Int × List Event :=
  if a.1 ≠ 0 then a else (b.1, a.2 ++ b.2)

/-- The function `setup_gpio`. -/
def setup_gpio (h : Host) (g : Nat) (is_out : Bool) : Int × List Event :=
  if h.gpio_request g ≠ 0 then
    (h.gpio_request g,
      [Event.gpio_request g (h.gpio_request g),
        Event.printk (Msg.cannot_request g (h.gpio_request g))])
  else
    let result := if is_out then h.gpio_direction_output g else h.gpio_direction_input g
    if result ≠ 0 then
      (result,
        [Event.gpio_request g 0, Event.gpio_direction g is_out result,
          Event.printk (Msg.cannot_configure g result)])
    else
      (0, [Event.gpio_request g 0, Event.gpio_direction g is_out 0])

/-- Lines 283-328 of `rpi_gpio_test_init`: preparing the five pins. -/
def init_pins (c : Config) (h : Host) : Int × List Event :=
  if c.USE_GPIO_REGS ≠ 0 then
    if !h.ioremap_ok then
      (-EBUSY, [Event.printk Msg.preparing_regs, Event.ioremap false,
        Event.printk Msg.error_mapping])
    else
      (0, [Event.printk Msg.preparing_regs, Event.ioremap true,
        Event.func_in GPIO_A_IN, Event.func_in GPIO_A_OUT, Event.func_out GPIO_A_OUT,
        Event.gpio_set GPIO_A_OUT,
        Event.func_in GPIO_B_IN, Event.func_in GPIO_B_OUT, Event.func_out GPIO_B_OUT,
        Event.gpio_set GPIO_B_OUT,
        Event.func_in GPIO_C_OUT, Event.func_out GPIO_C_OUT, Event.gpio_set GPIO_C_OUT])
  else
    and_then (0, [Event.printk Msg.preparing_api])
      (and_then (setup_gpio h GPIO_A_OUT true)
        (and_then (setup_gpio h GPIO_A_IN false)
          (and_then (setup_gpio h GPIO_B_OUT true)
            (and_then (setup_gpio h GPIO_B_IN false)
              (setup_gpio h GPIO_C_OUT true)))))

/-- Lines 330-332: the blocking write-only benchmark. -/
def init_wo_blocking (c : Config) (h : Host) : Int × List Event :=
  if c.USE_WO_BLOCKING ≠ 0 then
    (0, wo_benchmark (WO_ITERATION_COUNT c) h.t_wo_start h.t_wo_end)
  else (0, [])

/-- One `request_irq` block of lines 335-355 for the input pin `g`. -/
def init_irq (h : Host) (g : Nat) (hd : Handler) : Int × List Event :=
  let irq := h.gpio_to_irq g
  let result := h.request_irq irq hd
  if result ≠ 0 then
    (result, [Event.printk (Msg.setting_irq_handler g irq), Event.request_irq irq hd result,
      Event.printk (Msg.error_code result)])
  else
    (0, [Event.printk (Msg.setting_irq_handler g irq), Event.request_irq irq hd 0])

/-- Lines 334-375: starting the read-write benchmark. -/
def init_rw (c : Config) (h : Host) : Int × List Event :=
  if c.USE_RW_IRQ ≠ 0 then
    and_then (init_irq h GPIO_A_IN Handler.a) (init_irq h GPIO_B_IN Handler.b)
  else if c.USE_RW_POLL ≠ 0 then
    let created :=
      [Event.printk Msg.starting_rw_threads,
        Event.kthread_create Thread.rw_a (h.kthread_create_ok Thread.rw_a),
        Event.kthread_create Thread.rw_b (h.kthread_create_ok Thread.rw_b)]
    if !h.kthread_create_ok Thread.rw_a || !h.kthread_create_ok Thread.rw_b then
      (-EFAULT, created ++ [Event.printk Msg.unable_rw_threads])
    else
      (0, created ++
        (if c.USE_AFFINITY ≠ 0 then
          [Event.kthread_bind Thread.rw_a 1, Event.kthread_bind Thread.rw_b 2] else []) ++
        [Event.wake_up_process Thread.rw_a, Event.wake_up_process Thread.rw_b])
  else (0, [])

/-- Lines 377-392: starting the threaded write-only benchmark. -/
def init_wo_threaded (c : Config) (h : Host) : Int × List Event :=
  if c.USE_WO_THREADED ≠ 0 then
    if !h.kthread_create_ok Thread.wo then
      (-EFAULT, [Event.printk Msg.starting_wo_thread, Event.kthread_create Thread.wo false,
        Event.printk Msg.unable_wo_thread])
    else
      (0, [Event.printk Msg.starting_wo_thread, Event.kthread_create Thread.wo true] ++
        (if c.USE_AFFINITY ≠ 0 then [Event.kthread_bind Thread.wo 3] else []) ++
        [Event.wake_up_process Thread.wo])
  else (0, [])

/-- Lines 394-399: the initial kick. The assignment
`g_rw_base_timestamp = get_timestamp ()` has no event; the handlers and
`rw_thread_b` take that value as their parameter `base`. -/
def init_kick (c : Config) : Int × List Event :=
  if c.USE_RW_IRQ ≠ 0 ∨ c.USE_RW_POLL ≠ 0 then
    (0, [Event.printk (Msg.lowering GPIO_A_OUT), Event.gpio_clr GPIO_A_OUT])
  else (0, [])

/-- The function `rpi_gpio_test_init`: the value it returns and its events. -/
def rpi_gpio_test_init (c : Config) (h : Host) : Int × List Event :=
  and_then (0, [Event.printk Msg.loading])
    (and_then (init_pins c h)
      (and_then (init_wo_blocking c h)
        (and_then (init_rw c h)
          (and_then (init_wo_threaded c h) (init_kick c)))))

/-- The function `rpi_gpio_test_exit`; `irq_a` and `irq_b` are `g_gpio_a_irq`
and `g_gpio_b_irq`. -/
def rpi_gpio_test_exit (c : Config) (irq_a irq_b : Int) : List Event :=
  [Event.printk Msg.unloading] ++
  (if c.USE_RW_IRQ ≠ 0 then [Event.free_irq irq_a, Event.free_irq irq_b] else []) ++
  (if c.USE_GPIO_REGS ≠ 0 then [Event.iounmap]
   else [Event.gpio_free GPIO_A_IN, Event.gpio_free GPIO_A_OUT, Event.gpio_free GPIO_B_IN,
     Event.gpio_free GPIO_B_OUT, Event.gpio_free GPIO_C_OUT])

/-! ## Resources held after a run -/

inductive Resource
  | pin (g : Nat)
  | mapping
  | irq (n : Int)
  deriving DecidableEq, Repr

/-- The resource an event acquires: a pin by a successful `gpio_request`, the
register mapping by a successful `ioremap`, an interrupt line by a successful
`request_irq`. -/
def acquires : Event → Option Resource
  | Event.gpio_request g result => if result = 0 then some (Resource.pin g) else none
  | Event.ioremap ok => if ok then some Resource.mapping else none
  | Event.request_irq irq _ result => if result = 0 then some (Resource.irq irq) else none
  | _ => none

/-- The resource an event releases. -/
def releases : Event → Option Resource
  | Event.gpio_free g => some (Resource.pin g)
  | Event.iounmap => some Resource.mapping
  | Event.free_irq irq => some (Resource.irq irq)
  | _ => none

/-- The resources acquired and not released again, after the events `tr`
starting with `held` in hand, in order of acquisition. -/
def held_after : List Event → List Resource → List Resource
  | [], held => held
  | e :: tr, held =>
    match acquires e, releases e with
    | some r, _ => held_after tr (held ++ [r])
    | none, some r => held_after tr (held.erase r)
    | none, none => held_after tr held

/-- The number of release calls among the events. -/
def release_count (tr : List Event) : Nat :=
  (tr.filter (fun e => (releases e).isSome)).length

/-- A kernel in which every call succeeds except `gpio_request (GPIO_B_IN)`,
the fourth pin requested, which is refused with `-EBUSY`. -/
def host_fourth_pin_busy : Host :=
  { ioremap_ok := true
    gpio_request := fun g => if g = GPIO_B_IN then -EBUSY else 0
    gpio_direction_output := fun _ => 0
    gpio_direction_input := fun _ => 0
    gpio_to_irq := fun g => (g : Int) + 160
    request_irq := fun _ _ => 0
    kthread_create_ok := fun _ => true
    t_wo_start := 0
    t_wo_end := 2000 }

/-- The generic-API configuration: the switches of the source with
`USE_GPIO_REGS` 0. -/
def api_config : Config :=
  ⟨0, 0, 1, 0, 1, 0, 1⟩

/-! ## Register access (`USE_GPIO_REGS`) -/

/-- The register block behind `g_gpio_regs`: word index to word content. -/
abbrev Regs := Nat → Nat

/-- Read of the `unsigned int` word `*(g_gpio_regs + i)`. -/
def load (r : Regs) (i : Nat) : Nat := r i % 2 ^ 32

/-- Write of the `unsigned int` word `*(g_gpio_regs + i) = v`. -/
def store (r : Regs) (i v : Nat) : Regs :=
  fun j => if j = i then v % 2 ^ 32 else r j

/-- Bitwise complement `~x`, as the 32-bit operand it becomes in `&=`. -/
def not32 (x : Nat) : Nat := (2 ^ 32 - 1) ^^^ (x % 2 ^ 32)

/-- The macro `GPIO_SET_FUNC_IN(g)`:
`*(g_gpio_regs+((g)/10)) &= ~(7<<(((g)%10)*3))`. -/
def GPIO_SET_FUNC_IN (g : Nat) (r : Regs) : Regs :=
  store r (g / 10) (load r (g / 10) &&& not32 (7 <<< ((g % 10) * 3)))

/-- The macro `GPIO_SET_FUNC_OUT(g)`:
`*(g_gpio_regs+((g)/10)) |= (1<<(((g)%10)*3))`. -/
def GPIO_SET_FUNC_OUT (g : Nat) (r : Regs) : Regs :=
  store r (g / 10) (load r (g / 10) ||| (1 <<< ((g % 10) * 3)))

/-- The macro `GPIO_GET(g)`: `((*(g_gpio_regs+13) & (1<<(g))) != 0)`. -/
def GPIO_GET (g : Nat) (r : Regs) : Bool :=
  (load r 13 &&& ((1 <<< g) % 2 ^ 32)) != 0

/-- The macro `GPIO_SET(g)`: `(*(g_gpio_regs+7) = 1<<(g))`. -/
def GPIO_SET (g : Nat) (r : Regs) : Regs := store r 7 (1 <<< g)

/-- The macro `GPIO_CLR(g)`: `(*(g_gpio_regs+10) = 1<<(g))`. -/
def GPIO_CLR (g : Nat) (r : Regs) : Regs := store r 10 (1 <<< g)

/-- Reaction of the simulated register block of the round-trip property to a
write of word `i`, its level register reflecting the set and clear registers:
a write to the set register (7) raises the written bits in the level register
(13), a write to the clear register (10) lowers them; other words are plain
memory. -/
def sim_react (i : Nat) (r : Regs) : Regs :=
  if i = 7 then store r 13 (load r 13 ||| load r 7)
  else if i = 10 then store r 13 (load r 13 &&& not32 (load r 10))
  else r

/-! ## Loopback simulation of the polling threads -/

/-- Levels of the output pins after the writes among the events. -/
def apply_writes : List Event → (Nat → Bool) → (Nat → Bool)
  | [], level => level
  | Event.gpio_set g :: tr, level => apply_writes tr (fun p => if p = g then true else level p)
  | Event.gpio_clr g :: tr, level => apply_writes tr (fun p => if p = g then false else level p)
  | _ :: tr, level => apply_writes tr level

/-- State of the loopback simulation: the levels of the output pins, where
`rw_thread_a` stands, the readings `rw_thread_b` has taken so far, and whether
`kthread_stop (g_rw_thread_a)` has been called. -/
structure Loopback where
  level : Nat → Bool
  pcA : PcA
  rsB : List Bool
  stop : Bool

/-- The state in which `rpi_gpio_test_init` leaves the pins after the kick:
`GPIO_A_OUT` low, `GPIO_B_OUT` and `GPIO_C_OUT` high, both threads at their
start. -/
def loopback_start : Loopback :=
  { level := fun p => decide (p ≠ GPIO_A_OUT), pcA := PcA.outer, rsB := [], stop := false }

/-- One step of the loopback simulation, in which a write to `GPIO_A_OUT` is
what `GPIO_A_IN` reads and a write to `GPIO_B_OUT` is what `GPIO_B_IN` reads.
With `who = false` the thread `rw_thread_a` takes its next answer and runs to
its next question; with `who = true` the thread `rw_thread_b` takes its next
reading. -/
def loopback_step (yield : Bool) (N : Nat) (who : Bool) (s : Loopback) : Loopback :=
  if who then
    let old := rw_thread_b_loop yield N 0 s.rsB
    if old.2.isSome then { s with stop := true }
    else
      let new := rw_thread_b_loop yield N 0 (s.rsB ++ [s.level GPIO_B_OUT])
      { s with
        level := apply_writes (new.1.drop old.1.length) s.level
        rsB := s.rsB ++ [s.level GPIO_B_OUT]
        stop := new.2.isSome }
  else
    let answer := match s.pcA with
      | PcA.poll => s.level GPIO_A_OUT
      | _ => s.stop
    let r := rw_thread_a_step yield s.pcA answer
    { s with level := apply_writes r.2 s.level, pcA := r.1 }

/-- The loopback simulation under a schedule. -/
def loopback_run (yield : Bool) (N : Nat) : List Bool → Loopback → Loopback
  | [], s => s
  | who :: sched, s => loopback_run yield N sched (loopback_step yield N who s)

/-- The schedule that lets the two threads step in turn, `k` times each. -/
def round_robin (k : Nat) : List Bool := (List.replicate k [false, true]).flatten

/-! ## Properties of traces and register words -/

/-- The 3-bit function-select field of pin `g` in the register block. -/
def func_field (g : Nat) (r : Regs) : Nat := (load r (g / 10) >>> ((g % 10) * 3)) % 8

/-- One unsuccessful poll of `rw_thread_b`: `GPIO_B_IN` reads high, and the
thread yields when `USE_RW_YIELD` is set. -/
def poll_again (yield : Bool) : List Event :=
  Event.gpio_get GPIO_B_IN true :: (if yield then [Event.schedule] else [])

/-- One iteration of `rw_thread_b` that polls high `k` times before the low
reading: the set of `GPIO_B_OUT` follows the low reading and the clear of
`GPIO_A_OUT` follows the set. -/
def iteration_b (yield : Bool) (k : Nat) : List Event :=
  (List.replicate k (poll_again yield)).flatten ++
    [Event.gpio_get GPIO_B_IN false, Event.gpio_set GPIO_B_OUT, Event.gpio_clr GPIO_A_OUT]

/-- The switches of the source with neither read-write strategy selected. -/
def no_rw_config : Config :=
  ⟨1, 0, 0, 0, 1, 0, 1⟩

/-! # Theorems -/

/-! ## Lemmas on register words -/

theorem load_store_same (r : Regs) (i v : Nat) : load (store r i v) i = v % 2 ^ 32 := by
  simp [load, store]

theorem testBit_not32 (x i : Nat) :
    (not32 x).testBit i = (decide (i < 32) && !x.testBit i) := by
  unfold not32
  rw [Nat.testBit_xor, Nat.testBit_two_pow_sub_one, Nat.testBit_mod_two_pow]
  by_cases h : i < 32 <;> simp [h]

theorem testBit_load_lt (r : Regs) (k i : Nat) :
    (load r k).testBit i = (decide (i < 32) && (r k).testBit i) := by
  unfold load
  rw [Nat.testBit_mod_two_pow]

theorem testBit_seven (j : Nat) : (7 : Nat).testBit j = decide (j < 3) := by
  have h : (7 : Nat) = 2 ^ 3 - 1 := by norm_num
  rw [h, Nat.testBit_two_pow_sub_one]

theorem and_one_shift_ne_zero (x g : Nat) :
    ((x &&& (1 <<< g)) != 0) = x.testBit g := by
  rw [Nat.one_shiftLeft, Nat.and_two_pow]
  cases h : x.testBit g
  · simp
  · simp

theorem one_shift_mod (g : Nat) (hg : g ≤ 31) : (1 <<< g) % 2 ^ 32 = 1 <<< g := by
  rw [Nat.one_shiftLeft]
  apply Nat.mod_eq_of_lt
  exact Nat.pow_lt_pow_right (by norm_num) (by omega)

theorem one_shift_lt (g : Nat) (hg : g ≤ 31) : 1 <<< g < 4294967296 := by
  rw [Nat.one_shiftLeft]
  exact Nat.pow_lt_pow_right (by norm_num) (by omega : g < 32)

theorem GPIO_GET_eq_testBit (g : Nat) (r : Regs) (hg : g ≤ 31) :
    GPIO_GET g r = (r 13).testBit g := by
  unfold GPIO_GET
  rw [one_shift_mod g hg, and_one_shift_ne_zero, testBit_load_lt]
  simp; omega

/-- C6: pin access round trip in register mode, for every pin `g` from 0 to
31 and every content `r` of the register block. Over the simulated block,
`GPIO_SET (g)` followed by `GPIO_GET (g)` yields true and `GPIO_CLR (g)`
followed by `GPIO_GET (g)` yields false. `GPIO_SET` writes the single-bit value
`1 << g` to word 7 and `GPIO_CLR` writes it to word 10, leaving every other
word as it was; `GPIO_GET` is bit `g` of word 13 and depends on nothing else. -/
theorem pin_access_round_trip (g : Nat) (r : Regs) (hg : g ≤ 31) :
    GPIO_GET g (sim_react 7 (GPIO_SET g r)) = true ∧
    GPIO_GET g (sim_react 10 (GPIO_CLR g r)) = false ∧
    (GPIO_SET g r 7 = 1 <<< g ∧ ∀ j, j ≠ 7 → GPIO_SET g r j = r j) ∧
    (GPIO_CLR g r 10 = 1 <<< g ∧ ∀ j, j ≠ 10 → GPIO_CLR g r j = r j) ∧
    GPIO_GET g r = (r 13).testBit g ∧
    (∀ r2 : Regs, r2 13 = r 13 → GPIO_GET g r2 = GPIO_GET g r) := by
  have hlt : g < 32 := by omega
  refine ⟨?_, ?_, ⟨?_, ?_⟩, ⟨?_, ?_⟩, GPIO_GET_eq_testBit g r hg, ?_⟩
  · rw [GPIO_GET_eq_testBit _ _ hg]
    simp only [sim_react, if_true, GPIO_SET]
    show (store _ 13 _ 13).testBit g = true
    simp only [store, if_true]
    rw [Nat.testBit_mod_two_pow, Nat.testBit_or, load_store_same, one_shift_mod g hg,
      Nat.one_shiftLeft, Nat.testBit_two_pow]
    simp [hlt]
  · rw [GPIO_GET_eq_testBit _ _ hg]
    simp only [sim_react, GPIO_CLR]
    simp only [store, if_true, show ¬ ((10:Nat) = 7) by decide, if_false]
    rw [Nat.testBit_mod_two_pow, Nat.testBit_and, testBit_not32]
    rw [load_store_same, one_shift_mod g hg, Nat.one_shiftLeft, Nat.testBit_two_pow]
    simp [hlt]
  · simp [GPIO_SET, store, one_shift_lt g hg]
  · intro j hj; simp [GPIO_SET, store, hj]
  · simp [GPIO_CLR, store, one_shift_lt g hg]
  · intro j hj; simp [GPIO_CLR, store, hj]
  · intro r2 h
    rw [GPIO_GET_eq_testBit _ _ hg, GPIO_GET_eq_testBit _ _ hg, h]

/-- C6 at pin 17 (`GPIO_A_OUT`): set then read on an all-zero block, clear then
read on an all-one block. -/
theorem pin_access_round_trip_witness :
    (17 : Nat) ≤ 31 ∧ GPIO_GET 17 (sim_react 7 (GPIO_SET 17 (fun _ => 0))) = true ∧
    GPIO_GET 17 (sim_react 10 (GPIO_CLR 17 (fun _ => 2 ^ 32 - 1))) = false :=
  ⟨by decide, (pin_access_round_trip 17 (fun _ => 0) (by decide)).1,
    (pin_access_round_trip 17 (fun _ => 2 ^ 32 - 1) (by decide)).2.1⟩

theorem testBit_func_in (g : Nat) (r : Regs) (i : Nat) :
    (load (GPIO_SET_FUNC_IN g r) (g / 10)).testBit i =
      (if (g % 10) * 3 ≤ i ∧ i < (g % 10) * 3 + 3 then false
       else (load r (g / 10)).testBit i) := by
  unfold GPIO_SET_FUNC_IN
  rw [load_store_same, Nat.testBit_mod_two_pow, Nat.testBit_and, testBit_not32,
    Nat.testBit_shiftLeft, testBit_seven, testBit_load_lt]
  by_cases h1 : (g % 10) * 3 ≤ i
  · by_cases h2 : i < (g % 10) * 3 + 3
    · have : i - (g % 10) * 3 < 3 := by omega
      simp [h1, h2, this]
    · have : ¬ (i - (g % 10) * 3 < 3) := by omega
      simp [h1, h2, this]
      cases decide (i < 32) <;> simp
  · simp [h1]
    cases decide (i < 32) <;> simp

theorem testBit_func_out (g : Nat) (r : Regs) (i : Nat) :
    (load (GPIO_SET_FUNC_OUT g r) (g / 10)).testBit i =
      (if i = (g % 10) * 3 then true else (load r (g / 10)).testBit i) := by
  unfold GPIO_SET_FUNC_OUT
  have hs : (g % 10) * 3 < 32 := by omega
  rw [load_store_same, Nat.testBit_mod_two_pow, Nat.testBit_or, Nat.one_shiftLeft,
    Nat.testBit_two_pow, testBit_load_lt]
  by_cases h : i = (g % 10) * 3
  · subst h; simp [hs]
  · have h2 : ¬ ((g % 10) * 3 = i) := fun e => h e.symm
    simp [h, h2]

theorem field_eq_of_bits (x s v : Nat) (hv : v < 8)
    (h : ∀ k, k < 3 → x.testBit (s + k) = v.testBit k) : (x >>> s) % 8 = v := by
  apply Nat.eq_of_testBit_eq
  intro k
  have h8 : (8 : Nat) = 2 ^ 3 := by norm_num
  rw [h8, Nat.testBit_mod_two_pow, Nat.testBit_shiftRight]
  by_cases hk : k < 3
  · simp [hk, h k hk]
  · simp only [hk, decide_False, Bool.false_and]
    symm
    apply Nat.testBit_lt_two_pow
    calc v < 2 ^ 3 := by omega
      _ ≤ 2 ^ k := Nat.pow_le_pow_right (by norm_num) (by omega)

/-- C7: register-mode configure, for every pin `g` and every content `r` of
the register block. After `GPIO_SET_FUNC_IN (g)` the 3-bit function-select
field of the pin (bits `(g%10)*3` to `(g%10)*3+2` of word `g/10`) is 000; after
`GPIO_SET_FUNC_IN (g)` followed by `GPIO_SET_FUNC_OUT (g)` it is 001. In both
cases every bit of word `g/10` outside the field and every other word is
unchanged. -/
theorem set_func_field (g : Nat) (r : Regs) :
    func_field g (GPIO_SET_FUNC_IN g r) = 0 ∧
    func_field g (GPIO_SET_FUNC_OUT g (GPIO_SET_FUNC_IN g r)) = 1 ∧
    (∀ i, ¬ ((g % 10) * 3 ≤ i ∧ i < (g % 10) * 3 + 3) →
      (load (GPIO_SET_FUNC_IN g r) (g / 10)).testBit i = (load r (g / 10)).testBit i ∧
      (load (GPIO_SET_FUNC_OUT g (GPIO_SET_FUNC_IN g r)) (g / 10)).testBit i =
        (load r (g / 10)).testBit i) ∧
    (∀ j, j ≠ g / 10 →
      GPIO_SET_FUNC_IN g r j = r j ∧
      GPIO_SET_FUNC_OUT g (GPIO_SET_FUNC_IN g r) j = r j) := by
  refine ⟨?_, ?_, ?_, ?_⟩
  · apply field_eq_of_bits _ _ 0 (by norm_num)
    intro k hk
    rw [testBit_func_in]
    have : (g % 10) * 3 ≤ (g % 10) * 3 + k ∧ (g % 10) * 3 + k < (g % 10) * 3 + 3 := by omega
    simp [this]
  · apply field_eq_of_bits _ _ 1 (by norm_num)
    intro k hk
    rw [testBit_func_out, testBit_func_in]
    have : (g % 10) * 3 ≤ (g % 10) * 3 + k ∧ (g % 10) * 3 + k < (g % 10) * 3 + 3 := by omega
    rw [if_pos this]
    interval_cases k <;> simp <;> decide
  · intro i hi
    constructor
    · rw [testBit_func_in, if_neg hi]
    · rw [testBit_func_out, testBit_func_in, if_neg hi]
      have : ¬ (i = (g % 10) * 3) := by omega
      rw [if_neg this]
  · intro j hj
    constructor
    · simp [GPIO_SET_FUNC_IN, store, hj]
    · simp [GPIO_SET_FUNC_OUT, GPIO_SET_FUNC_IN, store, hj]

/-! ## Rate -/

theorem do_div_exact (n base : Nat) (hn : n < 2 ^ 64) (h0 : 0 < base) (h32 : base < 2 ^ 32) :
    do_div n base = some (n / base) := by
  unfold do_div
  rw [Nat.mod_eq_of_lt h32, Nat.mod_eq_of_lt hn, if_neg (by omega)]

theorem report_rate_exact (w : Bench) (count time : Nat) (hc : count * 10000000 < 2 ^ 64)
    (h0 : 0 < time) (h32 : time < 2 ^ 32) :
    report_rate w count time =
      [Event.do_div (count * 10000000) time,
        Event.report w count (some (count * 10000000 / time))] := by
  unfold report_rate
  simp only [Nat.mod_eq_of_lt hc, do_div_exact _ _ hc h0 h32]

theorem wo_loop_eq (N : Nat) :
    wo_loop N =
      (List.replicate N [Event.gpio_set GPIO_C_OUT, Event.gpio_clr GPIO_C_OUT]).flatten := by
  induction N with
  | zero => rfl
  | succ n ih => simp [wo_loop, List.replicate_succ, ih]

theorem rw_thread_b_finished (yield : Bool) (N : Nat) (rs : List Bool) (base now : Nat)
    (tr : List Event) (i : Nat) (h : rw_thread_b_loop yield N 0 rs = (tr, some i)) :
    rw_thread_b yield N rs base now =
      Event.printk Msg.entering_b ::
        (tr ++ report_rate Bench.poll i (sub64 now base) ++
          [Event.kthread_stop Thread.rw_a, Event.printk Msg.exiting_b]) := by
  unfold rw_thread_b
  rw [h]

/-- C1, amended: for every iteration count with `count * 10000000` below
`2 ^ 64` and every elapsed interval with `0 < elapsed < 2 ^ 32`, the rate
computed by `hz = count * 10000000; do_div (hz, time)` is
`count * 10000000 / elapsed` under truncating division, and this is the rate
that `wo_benchmark`, `gpio_b_irq_handler` and `rw_thread_b` report. -/
theorem hz_rate_is_truncated_quotient (count elapsed : Nat)
    (hc : count * 10000000 < 2 ^ 64) (h0 : 0 < elapsed) (h32 : elapsed < 2 ^ 32) :
    (∀ w, report_rate w count elapsed =
      [Event.do_div (count * 10000000) elapsed,
        Event.report w count (some (count * 10000000 / elapsed))]) ∧
    (∀ t0 t1, sub64 t1 t0 = elapsed →
      Event.report Bench.wo count (some (count * 10000000 / elapsed)) ∈
        wo_benchmark count t0 t1) ∧
    (∀ N base now, N ≤ count → sub64 now base = elapsed →
      Event.report Bench.irq count (some (count * 10000000 / elapsed)) ∈
        (gpio_b_irq_handler N base now count).2) ∧
    (∀ yield rs base now tr, rw_thread_b_loop yield count 0 rs = (tr, some count) →
      sub64 now base = elapsed →
      Event.report Bench.poll count (some (count * 10000000 / elapsed)) ∈
        rw_thread_b yield count rs base now) := by
  refine ⟨fun w => report_rate_exact w count elapsed hc h0 h32, ?_, ?_, ?_⟩
  · intro t0 t1 ht
    unfold wo_benchmark
    rw [ht, report_rate_exact _ count elapsed hc h0 h32]
    simp
  · intro N base now hN ht
    unfold gpio_b_irq_handler
    rw [if_pos hN, ht, report_rate_exact _ count elapsed hc h0 h32]
    simp
  · intro yield rs base now tr hloop ht
    rw [rw_thread_b_finished yield count rs base now tr count hloop, ht,
      report_rate_exact _ count elapsed hc h0 h32]
    simp

/-- C1, amended, at 1000 iterations in 2000 ticks: 5,000,000 Hz. -/
theorem hz_rate_is_truncated_quotient_witness :
    report_rate Bench.wo 1000 2000 =
      [Event.do_div 10000000000 2000, Event.report Bench.wo 1000 (some 5000000)] ∧
    Event.report Bench.irq 1000 (some 5000000) ∈ (gpio_b_irq_handler 1000 0 2000 1000).2 :=
  ⟨(hz_rate_is_truncated_quotient 1000 2000 (by norm_num) (by norm_num) (by norm_num)).1
     Bench.wo,
   (hz_rate_is_truncated_quotient 1000 2000 (by norm_num) (by norm_num) (by norm_num)).2.2.1
     1000 0 2000 (le_refl _) (by decide)⟩

/-- C1 fails as stated. With 1 iteration in `2 ^ 32 + 1` ticks the divisor of
`do_div` is cut to 1 and the rate computed is 10,000,000, where the quotient
is 0. With 1,844,674,407,371 iterations in 1 tick the product wraps to 448,384,
which is the rate computed, where the quotient is
18,446,744,073,710,000,000. -/
theorem hz_rate_not_quotient :
    (0 < 4294967297 ∧
      report_rate Bench.wo 1 4294967297 =
        [Event.do_div 10000000 4294967297, Event.report Bench.wo 1 (some 10000000)] ∧
      1 * 10000000 / 4294967297 = 0) ∧
    (0 < 1 ∧
      report_rate Bench.wo 1844674407371 1 =
        [Event.do_div 448384 1, Event.report Bench.wo 1844674407371 (some 448384)] ∧
      1844674407371 * 10000000 / 1 = 18446744073710000000) := by
  refine ⟨⟨by norm_num, ?_, by norm_num⟩, ⟨by norm_num, ?_, by norm_num⟩⟩
  · decide
  · decide

/-- C2, amended: the rate computation is not guarded. Whatever the elapsed
interval, `wo_benchmark`, `gpio_b_irq_handler` (once the counter has reached the
target) and `rw_thread_b` (once its loop is left) perform
`do_div (hz, time)` with the elapsed interval as divisor; when the interval is
0 ticks the division is performed with divisor 0 and the rate reported is
unspecified. -/
theorem division_is_unguarded :
    (∀ N t0 t1, Event.do_div (N * 10000000 % 2 ^ 64) (sub64 t1 t0) ∈ wo_benchmark N t0 t1) ∧
    (∀ N base now g_count, N ≤ g_count →
      Event.do_div (g_count * 10000000 % 2 ^ 64) (sub64 now base) ∈
        (gpio_b_irq_handler N base now g_count).2) ∧
    (∀ yield N rs base now tr i, rw_thread_b_loop yield N 0 rs = (tr, some i) →
      Event.do_div (i * 10000000 % 2 ^ 64) (sub64 now base) ∈
        rw_thread_b yield N rs base now) ∧
    (∀ w count, report_rate w count 0 =
      [Event.do_div (count * 10000000 % 2 ^ 64) 0, Event.report w count none]) := by
  refine ⟨?_, ?_, ?_, ?_⟩
  · intro N t0 t1
    simp [wo_benchmark, report_rate]
  · intro N base now g_count h
    simp [gpio_b_irq_handler, report_rate, h]
  · intro yield N rs base now tr i h
    rw [rw_thread_b_finished yield N rs base now tr i h]
    simp [report_rate]
  · intro w count
    simp [report_rate, do_div]

/-- C2 fails as stated: with equal timestamps (elapsed 0 ticks) each of
`wo_benchmark`, `gpio_b_irq_handler` and `rw_thread_b` performs the division,
with divisor 0. -/
theorem division_by_zero_elapsed_performed :
    sub64 5 5 = 0 ∧
    wo_benchmark 3 5 5 =
      [Event.printk Msg.benchmarking_wo,
        Event.gpio_set 22, Event.gpio_clr 22, Event.gpio_set 22, Event.gpio_clr 22,
        Event.gpio_set 22, Event.gpio_clr 22,
        Event.do_div 30000000 0, Event.report Bench.wo 3 none] ∧
    gpio_b_irq_handler 500000 7 7 500000 =
      (500000, [Event.gpio_set 23, Event.do_div 5000000000000 0,
        Event.report Bench.irq 500000 none]) ∧
    rw_thread_b false 1 [false] 9 9 =
      [Event.printk Msg.entering_b, Event.gpio_get 24 false, Event.gpio_set 23,
        Event.gpio_clr 17, Event.do_div 10000000 0, Event.report Bench.poll 1 none,
        Event.kthread_stop Thread.rw_a, Event.printk Msg.exiting_b] := by
  refine ⟨by decide, by decide, by decide, by decide⟩

/-- C5, amended: for every iteration count `N`, `wo_benchmark` performs exactly
`N` iterations, each a set of `GPIO_C_OUT` (22) followed by a clear of it,
writes no other pin, and reports count `N` together with the rate it computed
by `do_div` from the difference of the timestamps read after and before the
loop; when `N * 10000000` is below `2 ^ 64` and that difference is above 0 and
below `2 ^ 32`, the rate is `N * 10000000 / elapsed`; for `N = 1000` and an
elapsed interval of 2000 ticks it reports count 1000 and rate 5,000,000. -/
theorem wo_benchmark_trace (N t0 t1 : Nat) :
    wo_benchmark N t0 t1 =
      Event.printk Msg.benchmarking_wo ::
        ((List.replicate N [Event.gpio_set 22, Event.gpio_clr 22]).flatten ++
          [Event.do_div (N * 10000000 % 2 ^ 64) (sub64 t1 t0),
            Event.report Bench.wo N (do_div (N * 10000000 % 2 ^ 64) (sub64 t1 t0))]) ∧
    (N * 10000000 < 2 ^ 64 → 0 < sub64 t1 t0 → sub64 t1 t0 < 2 ^ 32 →
      do_div (N * 10000000 % 2 ^ 64) (sub64 t1 t0) = some (N * 10000000 / sub64 t1 t0)) ∧
    (N = 1000 → sub64 t1 t0 = 2000 →
      do_div (N * 10000000 % 2 ^ 64) (sub64 t1 t0) = some 5000000) := by
  refine ⟨?_, ?_, ?_⟩
  · unfold wo_benchmark
    rw [wo_loop_eq]
    rfl
  · intro hN h0 h32
    rw [Nat.mod_eq_of_lt hN]
    exact do_div_exact _ _ hN h0 h32
  · intro hN ht
    rw [hN, ht]
    decide

/-- C5, amended, at `N = 1000` with timestamps 0 and 2000. -/
theorem wo_benchmark_trace_witness :
    wo_benchmark 1000 0 2000 =
      Event.printk Msg.benchmarking_wo ::
        ((List.replicate 1000 [Event.gpio_set 22, Event.gpio_clr 22]).flatten ++
          [Event.do_div 10000000000 2000, Event.report Bench.wo 1000 (some 5000000)]) ∧
    do_div (1000 * 10000000 % 2 ^ 64) (sub64 2000 0) = some 5000000 :=
  ⟨((wo_benchmark_trace 1000 0 2000).1.trans (by
      have h := (wo_benchmark_trace 1000 0 2000).2.2 rfl (by decide)
      rw [h]
      rfl)),
   (wo_benchmark_trace 1000 0 2000).2.2 rfl (by decide)⟩

/-- C5 fails as stated: with `N = 1` and timestamps 2 and `2 ^ 32 + 3`
(elapsed `2 ^ 32 + 1` ticks) `wo_benchmark` reports the rate 10,000,000, where
`N * 10000000 / elapsed` is 0. -/
theorem wo_benchmark_rate_wrong :
    sub64 4294967299 2 = 4294967297 ∧
    wo_benchmark 1 2 4294967299 =
      [Event.printk Msg.benchmarking_wo, Event.gpio_set 22, Event.gpio_clr 22,
        Event.do_div 10000000 4294967297, Event.report Bench.wo 1 (some 10000000)] ∧
    1 * 10000000 / 4294967297 = 0 := by
  refine ⟨by decide, by decide, by norm_num⟩

/-! ## Configuration -/

/-- C4, amended: a configuration passes the sanity check exactly when at most
one of `USE_RW_IRQ`, `USE_RW_POLL` is set and at most one of
`USE_WO_BLOCKING`, `USE_WO_THREADED` is set; a configuration with both members
of either pair set is rejected, whatever the other switches are. -/
theorem sanity_check_passes_iff (c : Config) :
    (sanity_check_fails c = false ↔
      ¬ (c.USE_RW_IRQ ≠ 0 ∧ c.USE_RW_POLL ≠ 0) ∧
      ¬ (c.USE_WO_BLOCKING ≠ 0 ∧ c.USE_WO_THREADED ≠ 0)) ∧
    (c.USE_RW_IRQ ≠ 0 ∧ c.USE_RW_POLL ≠ 0 → sanity_check_fails c = true) ∧
    (c.USE_WO_BLOCKING ≠ 0 ∧ c.USE_WO_THREADED ≠ 0 → sanity_check_fails c = true) := by
  unfold sanity_check_fails
  refine ⟨?_, ?_, ?_⟩
  · simp only [Bool.or_eq_false_iff, Bool.and_eq_false_iff, decide_eq_false_iff_not]
    tauto
  · intro h; simp [h.1, h.2]
  · intro h; simp [h.1, h.2]

/-- C4, amended, at a configuration with both read-write strategies set. -/
theorem sanity_check_passes_iff_witness :
    sanity_check_fails ⟨1, 1, 1, 0, 0, 0, 1⟩ = true :=
  (sanity_check_passes_iff ⟨1, 1, 1, 0, 0, 0, 1⟩).2.1 ⟨by decide, by decide⟩

/-- C4 fails as stated: the configuration with `USE_RW_IRQ` and `USE_RW_POLL`
both 0 passes the sanity check, and neither read-write strategy is set in
it. -/
theorem sanity_check_accepts_no_rw_strategy :
    sanity_check_fails no_rw_config = false ∧
    no_rw_config.USE_RW_IRQ = 0 ∧ no_rw_config.USE_RW_POLL = 0 := by
  refine ⟨by decide, by decide, by decide⟩

/-! ## Initialisation -/

theorem mem_and_then (a b : Int × List Event) (e : Event) (h : e ∈ (and_then a b).2) :
    e ∈ a.2 ∨ e ∈ b.2 := by
  unfold and_then at h
  split at h
  · exact Or.inl h
  · exact List.mem_append.mp h

theorem wo_loop_no_release (N : Nat) : ∀ e ∈ wo_loop N, releases e = none := by
  induction N with
  | zero => intro e h; simp [wo_loop] at h
  | succ n ih =>
    intro e h
    simp only [wo_loop, List.mem_cons] at h
    rcases h with h | h | h
    · subst h; rfl
    · subst h; rfl
    · exact ih e h

theorem wo_benchmark_no_release (N t0 t1 : Nat) :
    ∀ e ∈ wo_benchmark N t0 t1, releases e = none := by
  intro e h
  simp only [wo_benchmark, report_rate, List.mem_cons, List.mem_append] at h
  rcases h with h | h | h | h | h
  · subst h; rfl
  · exact wo_loop_no_release N e h
  · subst h; rfl
  · subst h; rfl
  · simp at h

theorem setup_gpio_no_release (h : Host) (g : Nat) (is_out : Bool) :
    ∀ e ∈ (setup_gpio h g is_out).2, releases e = none := by
  unfold setup_gpio
  cases is_out <;> simp only [if_true, Bool.false_eq_true, if_false] <;>
    split_ifs <;> simp [releases]

theorem and_then_no_release (a b : Int × List Event)
    (ha : ∀ e ∈ a.2, releases e = none) (hb : ∀ e ∈ b.2, releases e = none) :
    ∀ e ∈ (and_then a b).2, releases e = none := by
  intro e he
  rcases mem_and_then a b e he with h | h
  · exact ha e h
  · exact hb e h

theorem init_pins_no_release (c : Config) (h : Host) :
    ∀ e ∈ (init_pins c h).2, releases e = none := by
  unfold init_pins
  split_ifs
  · simp [releases]
  · simp [releases]
  · refine and_then_no_release _ _ (by simp [releases]) ?_
    refine and_then_no_release _ _ (setup_gpio_no_release _ _ _) ?_
    refine and_then_no_release _ _ (setup_gpio_no_release _ _ _) ?_
    refine and_then_no_release _ _ (setup_gpio_no_release _ _ _) ?_
    exact and_then_no_release _ _ (setup_gpio_no_release _ _ _) (setup_gpio_no_release _ _ _)

theorem init_wo_blocking_no_release (c : Config) (h : Host) :
    ∀ e ∈ (init_wo_blocking c h).2, releases e = none := by
  unfold init_wo_blocking
  split_ifs
  · exact wo_benchmark_no_release _ _ _
  · simp

theorem init_irq_no_release (h : Host) (g : Nat) (hd : Handler) :
    ∀ e ∈ (init_irq h g hd).2, releases e = none := by
  unfold init_irq
  simp only
  split_ifs <;> simp [releases]

theorem init_rw_no_release (c : Config) (h : Host) :
    ∀ e ∈ (init_rw c h).2, releases e = none := by
  unfold init_rw
  simp only
  split_ifs
  · exact and_then_no_release _ _ (init_irq_no_release _ _ _) (init_irq_no_release _ _ _)
  · simp [releases]
  · simp [releases]
  · simp [releases]
  · simp

theorem init_wo_threaded_no_release (c : Config) (h : Host) :
    ∀ e ∈ (init_wo_threaded c h).2, releases e = none := by
  unfold init_wo_threaded
  split_ifs <;> simp [releases]

theorem init_kick_no_release (c : Config) :
    ∀ e ∈ (init_kick c).2, releases e = none := by
  unfold init_kick
  split_ifs <;> simp [releases]

theorem init_no_release (c : Config) (h : Host) :
    ∀ e ∈ (rpi_gpio_test_init c h).2, releases e = none := by
  unfold rpi_gpio_test_init
  refine and_then_no_release _ _ (by simp [releases]) ?_
  refine and_then_no_release _ _ (init_pins_no_release _ _) ?_
  refine and_then_no_release _ _ (init_wo_blocking_no_release _ _) ?_
  refine and_then_no_release _ _ (init_rw_no_release _ _) ?_
  exact and_then_no_release _ _ (init_wo_threaded_no_release _ _) (init_kick_no_release _)

theorem release_count_zero (tr : List Event) (h : ∀ e ∈ tr, releases e = none) :
    release_count tr = 0 := by
  unfold release_count
  rw [List.length_eq_zero, List.filter_eq_nil_iff]
  intro e he
  simp [h e he]

theorem held_after_no_release (tr : List Event) :
    ∀ held, (∀ e ∈ tr, releases e = none) →
      held_after tr held = held ++ tr.filterMap acquires := by
  induction tr with
  | nil => intro held _; simp [held_after]
  | cons e tr ih =>
    intro held h
    have he : releases e = none := h e (List.mem_cons_self _ _)
    have ht : ∀ x ∈ tr, releases x = none := fun x hx => h x (List.mem_cons_of_mem _ hx)
    unfold held_after
    cases ha : acquires e with
    | none => simp [he, ih held ht, List.filterMap_cons, ha]
    | some r => simp [ih _ ht, List.filterMap_cons, ha]

theorem and_then_fail (a b : Int × List Event) (h : a.1 ≠ 0) : and_then a b = a := by
  unfold and_then
  rw [if_pos h]

theorem and_then_ok (a b : Int × List Event) (h : a.1 = 0) :
    and_then a b = (b.1, a.2 ++ b.2) := by
  unfold and_then
  rw [if_neg (by simpa using h)]

theorem setup_gpio_ok (h : Host) (g : Nat) (is_out : Bool) (hr : h.gpio_request g = 0)
    (hd : (if is_out then h.gpio_direction_output g else h.gpio_direction_input g) = 0) :
    setup_gpio h g is_out = (0, [Event.gpio_request g 0, Event.gpio_direction g is_out 0]) := by
  unfold setup_gpio
  simp [hr, hd]

theorem setup_gpio_refused (h : Host) (g : Nat) (is_out : Bool) (hr : h.gpio_request g ≠ 0) :
    setup_gpio h g is_out =
      (h.gpio_request g, [Event.gpio_request g (h.gpio_request g),
        Event.printk (Msg.cannot_request g (h.gpio_request g))]) := by
  unfold setup_gpio
  rw [if_pos hr]

/-- The release calls of `rpi_gpio_test_exit`, in order: both interrupt lines
when `USE_RW_IRQ` is set, then the register mapping when `USE_GPIO_REGS` is
set and the five pins otherwise. -/
theorem rpi_gpio_test_exit_releases (c : Config) (irq_a irq_b : Int) :
    (rpi_gpio_test_exit c irq_a irq_b).filterMap releases =
      (if c.USE_RW_IRQ ≠ 0 then [Resource.irq irq_a, Resource.irq irq_b] else []) ++
      (if c.USE_GPIO_REGS ≠ 0 then [Resource.mapping]
       else [Resource.pin GPIO_A_IN, Resource.pin GPIO_A_OUT, Resource.pin GPIO_B_IN,
         Resource.pin GPIO_B_OUT, Resource.pin GPIO_C_OUT]) := by
  unfold rpi_gpio_test_exit
  split_ifs <;> simp [releases]

/-- C3, amended: no run of `rpi_gpio_test_init`, failing or not, releases
anything: it performs no release call, and every resource it acquired
(requested pins, the register mapping, bound interrupt lines) is still held
when it returns. In particular, in generic-API mode, if the first three pins are
set up and the request of the fourth (`GPIO_B_IN`) fails, the error of that
request is returned and the three pins acquired before stay acquired. -/
theorem init_failure_keeps_resources (c : Config) (h : Host) :
    release_count (rpi_gpio_test_init c h).2 = 0 ∧
    held_after (rpi_gpio_test_init c h).2 [] =
      (rpi_gpio_test_init c h).2.filterMap acquires ∧
    (c.USE_GPIO_REGS = 0 →
      h.gpio_request GPIO_A_OUT = 0 → h.gpio_direction_output GPIO_A_OUT = 0 →
      h.gpio_request GPIO_A_IN = 0 → h.gpio_direction_input GPIO_A_IN = 0 →
      h.gpio_request GPIO_B_OUT = 0 → h.gpio_direction_output GPIO_B_OUT = 0 →
      h.gpio_request GPIO_B_IN ≠ 0 →
      (rpi_gpio_test_init c h).1 = h.gpio_request GPIO_B_IN ∧
      held_after (rpi_gpio_test_init c h).2 [] =
        [Resource.pin GPIO_A_OUT, Resource.pin GPIO_A_IN, Resource.pin GPIO_B_OUT]) := by
  refine ⟨release_count_zero _ (init_no_release c h), ?_, ?_⟩
  · rw [held_after_no_release _ [] (init_no_release c h)]
    simp
  · intro hc a1 a2 b1 b2 c1 c2 d1
    have hinit : rpi_gpio_test_init c h =
        (h.gpio_request GPIO_B_IN,
          [Event.printk Msg.loading, Event.printk Msg.preparing_api,
            Event.gpio_request GPIO_A_OUT 0, Event.gpio_direction GPIO_A_OUT true 0,
            Event.gpio_request GPIO_A_IN 0, Event.gpio_direction GPIO_A_IN false 0,
            Event.gpio_request GPIO_B_OUT 0, Event.gpio_direction GPIO_B_OUT true 0,
            Event.gpio_request GPIO_B_IN (h.gpio_request GPIO_B_IN),
            Event.printk (Msg.cannot_request GPIO_B_IN (h.gpio_request GPIO_B_IN))]) := by
      have hp : init_pins c h =
          (h.gpio_request GPIO_B_IN,
            [Event.printk Msg.preparing_api,
              Event.gpio_request GPIO_A_OUT 0, Event.gpio_direction GPIO_A_OUT true 0,
              Event.gpio_request GPIO_A_IN 0, Event.gpio_direction GPIO_A_IN false 0,
              Event.gpio_request GPIO_B_OUT 0, Event.gpio_direction GPIO_B_OUT true 0,
              Event.gpio_request GPIO_B_IN (h.gpio_request GPIO_B_IN),
              Event.printk (Msg.cannot_request GPIO_B_IN (h.gpio_request GPIO_B_IN))]) := by
        unfold init_pins
        rw [if_neg (by simp [hc])]
        rw [setup_gpio_ok h GPIO_A_OUT true a1 (by simpa using a2),
          setup_gpio_ok h GPIO_A_IN false b1 (by simpa using b2),
          setup_gpio_ok h GPIO_B_OUT true c1 (by simpa using c2),
          setup_gpio_refused h GPIO_B_IN false d1]
        rw [and_then_fail _ (setup_gpio h GPIO_C_OUT true) d1]
        simp [and_then_ok]
      unfold rpi_gpio_test_init
      rw [hp, and_then_ok _ _ rfl, and_then_fail _ _ d1]
      rfl
    rw [hinit]
    refine ⟨rfl, ?_⟩
    simp [held_after, acquires, releases, d1]

/-- C3, amended, on a kernel that refuses the fourth pin. -/
theorem init_failure_keeps_resources_witness :
    (rpi_gpio_test_init api_config host_fourth_pin_busy).1 = -16 ∧
    held_after (rpi_gpio_test_init api_config host_fourth_pin_busy).2 [] =
      [Resource.pin 17, Resource.pin 18, Resource.pin 23] :=
  (init_failure_keeps_resources api_config host_fourth_pin_busy).2.2
    rfl rfl rfl rfl rfl rfl rfl (by decide)

/-- C3 fails as stated: in generic-API mode, when the request of the fourth
pin is refused, `rpi_gpio_test_init` returns `-EBUSY` with pins 17, 18 and 23
still held and no release call made. -/
theorem init_fourth_pin_failure_leaks :
    (rpi_gpio_test_init api_config host_fourth_pin_busy).1 = -16 ∧
    held_after (rpi_gpio_test_init api_config host_fourth_pin_busy).2 [] =
      [Resource.pin 17, Resource.pin 18, Resource.pin 23] ∧
    release_count (rpi_gpio_test_init api_config host_fourth_pin_busy).2 = 0 := by
  refine ⟨by decide, by decide, by decide⟩

/-! ## Interrupt chain -/

theorem gpio_b_irq_handler_le (N base now g : Nat) (h : g ≤ N) :
    (gpio_b_irq_handler N base now g).1 ≤ N := by
  unfold gpio_b_irq_handler
  split_ifs with hge
  · exact h
  · have : (g + 1) % 2 ^ 64 ≤ g + 1 := Nat.mod_le _ _
    show (g + 1) % 2 ^ 64 ≤ N
    omega

theorem irq_b_firings_le (N base : Nat) (nows : List Nat) :
    ∀ g, g ≤ N → (irq_b_firings N base nows g).1 ≤ N := by
  induction nows with
  | nil => intro g h; exact h
  | cons now nows ih =>
    intro g h
    exact ih _ (gpio_b_irq_handler_le N base now g h)

/-- One invocation run alone, statement by statement, does what
`gpio_b_irq_handler` does. -/
theorem irq_b_interleave_alone (N base now g : Nat) (pc1 : PcB) :
    (g < N →
      irq_b_interleave N base now [false, false, false, false] ⟨g, PcB.idle, pc1⟩ =
        (⟨(gpio_b_irq_handler N base now g).1, PcB.idle, pc1⟩,
          (gpio_b_irq_handler N base now g).2)) ∧
    (N ≤ g →
      irq_b_interleave N base now [false, false, false] ⟨g, PcB.idle, pc1⟩ =
        (⟨(gpio_b_irq_handler N base now g).1, PcB.idle, pc1⟩,
          (gpio_b_irq_handler N base now g).2)) := by
  constructor
  · intro h
    have h2 : ¬ g ≥ N := by omega
    simp [irq_b_interleave, irq_b_step, gpio_b_irq_handler, h2]
  · intro h
    have h2 : g ≥ N := h
    simp [irq_b_interleave, irq_b_step, gpio_b_irq_handler, h2]

/-- C8, amended: starting from `g_count = 0`, for every sequence of firings of
`gpio_b_irq_handler` that run one after another, `g_count` never exceeds the
target `N`; a firing that finds the counter at or above the target finds it
equal to the target, reports the rate, and neither clears `GPIO_A_OUT` nor
increments the counter; a firing that finds the counter below the target
increments it and clears `GPIO_A_OUT`. -/
theorem irq_counter_sequential (N base : Nat) (nows : List Nat) :
    (irq_b_firings N base nows 0).1 ≤ N ∧
    (∀ now, N ≤ (irq_b_firings N base nows 0).1 →
      (irq_b_firings N base nows 0).1 = N ∧
      gpio_b_irq_handler N base now (irq_b_firings N base nows 0).1 =
        (N, Event.gpio_set GPIO_B_OUT :: report_rate Bench.irq N (sub64 now base))) ∧
    (∀ now g, g < N → g < 2 ^ 64 - 1 →
      gpio_b_irq_handler N base now g =
        (g + 1, [Event.gpio_set GPIO_B_OUT, Event.gpio_clr GPIO_A_OUT])) := by
  have hle := irq_b_firings_le N base nows 0 (Nat.zero_le _)
  refine ⟨hle, ?_, ?_⟩
  · intro now hge
    have heq : (irq_b_firings N base nows 0).1 = N := Nat.le_antisymm hle hge
    refine ⟨heq, ?_⟩
    rw [heq]
    unfold gpio_b_irq_handler
    rw [if_pos (Nat.le_refl N)]
  · intro now g hg h64
    unfold gpio_b_irq_handler
    rw [if_neg (by omega), Nat.mod_eq_of_lt (by omega)]

/-- C8, amended, at target 3 after five firings. -/
theorem irq_counter_sequential_witness :
    (irq_b_firings 3 0 [10, 20, 30, 40, 50] 0).1 = 3 ∧
    gpio_b_irq_handler 3 0 60 (irq_b_firings 3 0 [10, 20, 30, 40, 50] 0).1 =
      (3, Event.gpio_set GPIO_B_OUT :: report_rate Bench.irq 3 (sub64 60 0)) :=
  (irq_counter_sequential 3 0 [10, 20, 30, 40, 50]).2.1 60 (by decide)

theorem irq_b_interleave_append (N base now : Nat) (s1 s2 : List Bool) :
    ∀ st, (irq_b_interleave N base now (s1 ++ s2) st).1 =
      (irq_b_interleave N base now s2 (irq_b_interleave N base now s1 st).1).1 := by
  induction s1 with
  | nil => intro st; rfl
  | cons b s1 ih =>
    intro st
    cases b
    · simp only [List.cons_append, irq_b_interleave]
      exact ih _
    · simp only [List.cons_append, irq_b_interleave]
      exact ih _

theorem irq_b_interleave_sequential (N base now : Nat) (k : Nat) :
    ∀ g, g + k ≤ N → N < 2 ^ 64 →
      (irq_b_interleave N base now
        (List.replicate k [false, false, false, false]).flatten ⟨g, PcB.idle, PcB.idle⟩).1 =
        ⟨g + k, PcB.idle, PcB.idle⟩ := by
  induction k with
  | zero => intro g _ _; rfl
  | succ k ih =>
    intro g h hN
    rw [List.replicate_succ, List.flatten_cons, irq_b_interleave_append,
      (irq_b_interleave_alone N base now g PcB.idle).1 (by omega)]
    have hstep : (gpio_b_irq_handler N base now g).1 = g + 1 := by
      unfold gpio_b_irq_handler
      rw [if_neg (by omega)]
      exact Nat.mod_eq_of_lt (by omega)
    simp only [hstep]
    rw [ih (g + 1) (by omega) hN]
    congr 1
    omega

/-- C8 fails as stated: with the target 500,000 of the source, 499,999 firings
one after another followed by two firings whose statements alternate leave
`g_count` at 500,001: both firings test the counter before either increments
it. -/
theorem irq_counter_overshoots_when_overlapping :
    (irq_b_interleave 500000 0 1000
      ((List.replicate 499999 [false, false, false, false]).flatten ++
        [false, true, false, true, false, true, false, true])
      ⟨0, PcB.idle, PcB.idle⟩).1 = ⟨500001, PcB.idle, PcB.idle⟩ := by
  rw [irq_b_interleave_append,
    irq_b_interleave_sequential 500000 0 1000 499999 0 (by norm_num) (by norm_num)]
  decide

theorem rw_thread_b_loop_runs (yield : Bool) (N : Nat) (rs : List Bool) :
    ∀ i, i ≤ N → N - i ≤ rs.count false →
      ∃ waits : List Nat, waits.length = N - i ∧
        rw_thread_b_loop yield N i rs = (waits.flatMap (iteration_b yield), some N) := by
  induction rs with
  | nil =>
    intro i hi hc
    have : i = N := by simp at hc; omega
    subst this
    exact ⟨[], by simp, by simp [rw_thread_b_loop]⟩
  | cons b rs ih =>
    intro i hi hc
    by_cases hlt : i < N
    · cases b
      · have hc2 : N - (i + 1) ≤ rs.count false := by
          simp only [List.count_cons_self] at hc
          omega
        obtain ⟨waits, hlen, hrun⟩ := ih (i + 1) (by omega) hc2
        refine ⟨0 :: waits, by simp [hlen]; omega, ?_⟩
        unfold rw_thread_b_loop
        simp [hlt, hrun, iteration_b]
      · have hc2 : N - i ≤ rs.count false := by
          simpa using hc
        obtain ⟨waits, hlen, hrun⟩ := ih i hi hc2
        cases waits with
        | nil => simp at hlen; omega
        | cons k waits =>
          refine ⟨(k + 1) :: waits, by simpa using hlen, ?_⟩
          unfold rw_thread_b_loop
          simp [hlt, hrun, iteration_b, poll_again, List.replicate_succ]
    · have : i = N := by omega
      subst this
      exact ⟨[], by simp, by simp [rw_thread_b_loop]⟩

theorem iterations_b_no_stop (yield : Bool) (waits : List Nat) :
    (waits.flatMap (iteration_b yield)).count (Event.kthread_stop Thread.rw_a) = 0 := by
  rw [List.count_eq_zero]
  intro h
  rw [List.mem_flatMap] at h
  obtain ⟨k, _, hk⟩ := h
  unfold iteration_b at hk
  rw [List.mem_append] at hk
  rcases hk with hk | hk
  · rw [List.mem_flatten] at hk
    obtain ⟨l, hl, hm⟩ := hk
    rw [List.mem_replicate] at hl
    rw [hl.2] at hm
    cases yield <;> simp [poll_again] at hm
  · simp at hk

/-- C10: for every iteration count `N` and every sequence of readings of
`GPIO_B_IN` with at least `N` low readings, `rw_thread_b` performs exactly `N`
iterations, each one polling until the reading is low, then setting
`GPIO_B_OUT`, then clearing `GPIO_A_OUT`; after the loop it reports count `N`,
calls `kthread_stop` on thread A exactly once, and writes no pin after that. -/
theorem rw_thread_b_trace (yield : Bool) (N : Nat) (rs : List Bool) (base now : Nat)
    (h : N ≤ rs.count false) :
    ∃ waits : List Nat, waits.length = N ∧
      rw_thread_b yield N rs base now =
        Event.printk Msg.entering_b ::
          (waits.flatMap (iteration_b yield) ++
            [Event.do_div (N * 10000000 % 2 ^ 64) (sub64 now base),
              Event.report Bench.poll N (do_div (N * 10000000 % 2 ^ 64) (sub64 now base)),
              Event.kthread_stop Thread.rw_a, Event.printk Msg.exiting_b]) ∧
      (rw_thread_b yield N rs base now).count (Event.kthread_stop Thread.rw_a) = 1 := by
  obtain ⟨waits, hlen, hrun⟩ := rw_thread_b_loop_runs yield N rs 0 (Nat.zero_le _) (by simpa using h)
  have htr : rw_thread_b yield N rs base now =
      Event.printk Msg.entering_b ::
        (waits.flatMap (iteration_b yield) ++
          [Event.do_div (N * 10000000 % 2 ^ 64) (sub64 now base),
            Event.report Bench.poll N (do_div (N * 10000000 % 2 ^ 64) (sub64 now base)),
            Event.kthread_stop Thread.rw_a, Event.printk Msg.exiting_b]) := by
    unfold rw_thread_b
    rw [hrun]
    simp [report_rate]
  refine ⟨waits, by simpa using hlen, htr, ?_⟩
  rw [htr, List.count_cons, List.count_append, iterations_b_no_stop]
  simp [List.count_cons]

/-- C10 at `N = 5` over the loopback simulation, the two threads stepping in
turn: count 5 is reported and thread A is stopped once. -/
theorem rw_thread_b_trace_witness :
    ∃ waits : List Nat, waits.length = 5 ∧
      rw_thread_b false 5 (loopback_run false 5 (round_robin 20) loopback_start).rsB
          100 2100 =
        Event.printk Msg.entering_b ::
          (waits.flatMap (iteration_b false) ++
            [Event.do_div (5 * 10000000 % 2 ^ 64) (sub64 2100 100),
              Event.report Bench.poll 5 (do_div (5 * 10000000 % 2 ^ 64) (sub64 2100 100)),
              Event.kthread_stop Thread.rw_a, Event.printk Msg.exiting_b]) ∧
      (rw_thread_b false 5 (loopback_run false 5 (round_robin 20) loopback_start).rsB
          100 2100).count (Event.kthread_stop Thread.rw_a) = 1 :=
  rw_thread_b_trace false 5 (loopback_run false 5 (round_robin 20) loopback_start).rsB
    100 2100 (by decide)

end RpiGpioTest
